import Mathlib

/-!
Verification development for the `egu22pygmt` short-course repository.

The repository consists of five Jupyter notebooks — `first-figure.ipynb`,
the Mars-maps notebook, the scientific-Python-ecosystem notebook,
`lidar_to_surface.ipynb`, and the extended Mars-maps notebook ("Making some
Mars maps with pygmt (extended)") — plus static documentation.  The
development below embeds, cell by cell, the statement skeleton of every code
cell of the five notebooks: which external libraries each statement imports
or calls, which variable each assignment binds, and the control structure
(loops, `with` blocks including one level of nesting, function definitions,
IPython magics, shell commands).  It also embeds the few pieces of
data-level glue the notebooks author themselves: the pandas `query`/`iloc`
filters of the LiDAR notebook, the GeoPandas population filter/rescale of
the ecosystem notebook, the `bounds` polygon of the Mars notebook, and the
regions of the grids passed to the grid operations.
-/

/-- The external Python libraries used by the notebooks (the imports that
occur across the four notebooks). -/
inductive Lib
  | pygmt
  | geopandas
  | xarray
  | pandas
  | laspy
  | rioxarray
  | panel
deriving DecidableEq

/-- Names of the external-library functions and methods invoked by notebook
code cells.  `showFig` stands for the `show` method of `pygmt.Figure`
(`show` is a Lean keyword); `getitem_mask` stands for boolean-mask selection
`frame[(…)]` on a (Geo)DataFrame; `series_mul` for scalar multiplication of a
pandas Series; `iloc` for positional `iloc[…]` indexing. -/
inductive Fn
  | Figure
  | coast
  | showFig
  | basemap
  | makecpt
  | plot
  | colorbar
  | grdimage
  | grdview
  | grdsample
  | inset
  | info
  | which
  | surface
  | blockmedian
  | load_sample_data
  | savefig
  | open_dataset
  | sel
  | isel
  | astype
  | read_file
  | get_path
  | head
  | describe
  | query
  | iloc
  | DataFrame
  | append
  | min
  | max
  | getitem_mask
  | series_mul
  | read
  | scaled_array
  | to_raster
  | extension
  | DiscreteSlider
  | depends
  | Column
  | subplot
  | set_panel
  | text
  | load_earth_relief
deriving DecidableEq

/-- The variables assigned by notebook code cells.  `world_pop_est` stands for
the column assignment target `world[…]` for the `pop_est` column. -/
inductive PyVar
  | fig
  | fig2
  | fig3
  | region
  | data
  | df
  | df_filtered
  | df_trimmed
  | grid
  | lazfile
  | lazdata
  | temp_df
  | filenames
  | dset_mars
  | dset_mars_topo
  | dset_olympus
  | bounds
  | world
  | world_pop_est
  | cmap_bounds
  | url
  | netcdf_file
  | woa_temp
  | depth_slider
  | view
  | topo_cpt
  | topo_hawaii
  | topo_globe
  | zhurong
  | Olympus
  | frame
deriving DecidableEq

/-- A call into an external library: the library the call dispatches into and
the function or method name.  A method call on a library object (`fig.coast`
on a `pygmt.Figure`, `df.describe` on a `pandas.DataFrame`) dispatches into
the library that owns the object. -/
structure ExtCall where
  lib : Lib
  fn : Fn
deriving DecidableEq

/-- A straight-line statement of a notebook code cell.  `assign v cs` is an
assignment to `v` whose right-hand side contains exactly the external-library
calls `cs` (`[]` for a pure literal such as `region = [125, 155, 30, 55]`);
`exprStmt cs` is a bare expression statement (`[]` for a bare variable
display such as `df`, or a builtin `print(…)`); `ret cs` is a `return`
statement inside a function body. -/
inductive SimpleStmt
  | assign (target : PyVar) (calls : List ExtCall)
  | exprStmt (calls : List ExtCall)
  | commentOnly
  | ret (calls : List ExtCall)
deriving DecidableEq

/-- A statement inside the body of a `with` block: either a straight-line
statement or a nested `with` block whose own body is straight-line.  This is
exactly the nesting depth the source exhibits: the extended Mars notebook's
`with fig.subplot(…):` block contains two `with fig.set_panel(…):` blocks
whose bodies are straight-line. -/
inductive BlockStmt
  | simple (s : SimpleStmt)
  | withBlock (ctx : ExtCall) (body : List SimpleStmt)
deriving DecidableEq

/-- A statement of a notebook code cell.  `shellCmd` is a `!…` shell command
line; `magicCmd` an IPython line or cell magic (`%matplotlib inline`,
`%%script echo skipping`, `%%capture`).  The bodies of `for` loops and
function definitions in the notebooks are straight-line; `with` blocks may
contain one level of nested `with` blocks (`BlockStmt`).  `tryExcept` and
`ifBranch` are the Python constructs for failure handling; they appear in no
notebook cell, and having them in the type makes their absence a checkable
property of the transcription. -/
inductive Stmt
  | importLib (lib : Lib)
  | shellCmd
  | magicCmd
  | simple (s : SimpleStmt)
  | forLoop (body : List SimpleStmt)
  | withBlock (ctx : ExtCall) (body : List BlockStmt)
  | funcDef (name : PyVar) (decorators : List ExtCall) (body : List SimpleStmt)
  | tryExcept (tryBody handlerBody : List SimpleStmt)
  | ifBranch (body elseBody : List SimpleStmt)
deriving DecidableEq

/-- A notebook code cell is a list of statements. -/
abbrev Cell := List Stmt

/-- External-library calls of a straight-line statement. -/
def SimpleStmt.calls : SimpleStmt → List ExtCall
  | .assign _ cs => cs
  | .exprStmt cs => cs
  | .commentOnly => []
  | .ret cs => cs

/-- External-library calls of a `with`-body statement, including the
context-manager call of a nested `with` block. -/
def BlockStmt.calls : BlockStmt → List ExtCall
  | .simple s => s.calls
  | .withBlock ctx body => ctx :: (body.map SimpleStmt.calls).flatten

/-- All external-library calls of a statement, including calls inside loop,
`with` and function bodies (and the context-manager call of a `with`, and the
decorator calls of a `def`). -/
def Stmt.calls : Stmt → List ExtCall
  | .importLib _ => []
  | .shellCmd => []
  | .magicCmd => []
  | .simple s => s.calls
  | .forLoop body => (body.map SimpleStmt.calls).flatten
  | .withBlock ctx body => ctx :: (body.map BlockStmt.calls).flatten
  | .funcDef _ decs body => decs ++ (body.map SimpleStmt.calls).flatten
  | .tryExcept b h => (b.map SimpleStmt.calls).flatten ++ (h.map SimpleStmt.calls).flatten
  | .ifBranch b e => (b.map SimpleStmt.calls).flatten ++ (e.map SimpleStmt.calls).flatten

/-- All external-library calls of a cell. -/
def cellCalls (c : Cell) : List ExtCall :=
  (c.map Stmt.calls).flatten

/-- Whether a cell invokes at least one external-library function or method. -/
def cellHasExtCall (c : Cell) : Bool :=
  !(cellCalls c).isEmpty

/-- The code cells of `book/first-figure.ipynb`, in order. -/
def firstFigureCells : List Cell := [
  -- cell 1: `import pygmt`
  [.importLib .pygmt],
  -- cell 2: fig = pygmt.Figure()
  [.simple (.assign .fig [⟨.pygmt, .Figure⟩])],
  -- cell 3: region = [125, 155, 30, 55]
  [.simple (.assign .region [])],
  -- cell 4: fig.coast(region=region, shorelines=True)
  [.simple (.exprStmt [⟨.pygmt, .coast⟩])],
  -- cell 5: fig.show()
  [.simple (.exprStmt [⟨.pygmt, .showFig⟩])],
  -- cell 6: fig.coast(water=…); fig.show()
  [.simple (.exprStmt [⟨.pygmt, .coast⟩]), .simple (.exprStmt [⟨.pygmt, .showFig⟩])],
  -- cell 7: fig.coast(land=…); fig.show()
  [.simple (.exprStmt [⟨.pygmt, .coast⟩]), .simple (.exprStmt [⟨.pygmt, .showFig⟩])],
  -- cell 8: fig = pygmt.Figure(); fig.coast(…); fig.coast(shorelines=True); fig.show()
  [.simple (.assign .fig [⟨.pygmt, .Figure⟩]), .simple (.exprStmt [⟨.pygmt, .coast⟩]),
   .simple (.exprStmt [⟨.pygmt, .coast⟩]), .simple (.exprStmt [⟨.pygmt, .showFig⟩])],
  -- cell 9: fig = pygmt.Figure(); fig.coast(…); fig.show()
  [.simple (.assign .fig [⟨.pygmt, .Figure⟩]), .simple (.exprStmt [⟨.pygmt, .coast⟩]),
   .simple (.exprStmt [⟨.pygmt, .showFig⟩])],
  -- cell 10: fig = pygmt.Figure(); fig.coast(…); fig.basemap(frame="a"); fig.show()
  [.simple (.assign .fig [⟨.pygmt, .Figure⟩]), .simple (.exprStmt [⟨.pygmt, .coast⟩]),
   .simple (.exprStmt [⟨.pygmt, .basemap⟩]), .simple (.exprStmt [⟨.pygmt, .showFig⟩])],
  -- cell 11: same shape, frame="af"
  [.simple (.assign .fig [⟨.pygmt, .Figure⟩]), .simple (.exprStmt [⟨.pygmt, .coast⟩]),
   .simple (.exprStmt [⟨.pygmt, .basemap⟩]), .simple (.exprStmt [⟨.pygmt, .showFig⟩])],
  -- cell 12: same shape, frame="afg"
  [.simple (.assign .fig [⟨.pygmt, .Figure⟩]), .simple (.exprStmt [⟨.pygmt, .coast⟩]),
   .simple (.exprStmt [⟨.pygmt, .basemap⟩]), .simple (.exprStmt [⟨.pygmt, .showFig⟩])],
  -- cell 13: same shape, frame=["afg", "+tCoastlines around Japan"]
  [.simple (.assign .fig [⟨.pygmt, .Figure⟩]), .simple (.exprStmt [⟨.pygmt, .coast⟩]),
   .simple (.exprStmt [⟨.pygmt, .basemap⟩]), .simple (.exprStmt [⟨.pygmt, .showFig⟩])],
  -- cell 14: same shape, projection="C140/40/15c" on coast
  [.simple (.assign .fig [⟨.pygmt, .Figure⟩]), .simple (.exprStmt [⟨.pygmt, .coast⟩]),
   .simple (.exprStmt [⟨.pygmt, .basemap⟩]), .simple (.exprStmt [⟨.pygmt, .showFig⟩])],
  -- cell 15: data = pygmt.datasets.load_sample_data(…); data
  [.simple (.assign .data [⟨.pygmt, .load_sample_data⟩]), .simple (.exprStmt [])],
  -- cell 16: fig = pygmt.Figure(); fig.coast(…); fig.plot(x=…, y=…); fig.basemap(…); fig.show()
  [.simple (.assign .fig [⟨.pygmt, .Figure⟩]), .simple (.exprStmt [⟨.pygmt, .coast⟩]),
   .simple (.exprStmt [⟨.pygmt, .plot⟩]), .simple (.exprStmt [⟨.pygmt, .basemap⟩]),
   .simple (.exprStmt [⟨.pygmt, .showFig⟩])],
  -- cell 17: same shape with style/color on plot
  [.simple (.assign .fig [⟨.pygmt, .Figure⟩]), .simple (.exprStmt [⟨.pygmt, .coast⟩]),
   .simple (.exprStmt [⟨.pygmt, .plot⟩]), .simple (.exprStmt [⟨.pygmt, .basemap⟩]),
   .simple (.exprStmt [⟨.pygmt, .showFig⟩])],
  -- cell 18: … pygmt.makecpt(series=[data.depth_km.min(), data.depth_km.max()]); fig.plot(…); …
  [.simple (.assign .fig [⟨.pygmt, .Figure⟩]), .simple (.exprStmt [⟨.pygmt, .coast⟩]),
   .simple (.exprStmt [⟨.pygmt, .makecpt⟩, ⟨.pandas, .min⟩, ⟨.pandas, .max⟩]),
   .simple (.exprStmt [⟨.pygmt, .plot⟩]), .simple (.exprStmt [⟨.pygmt, .basemap⟩]),
   .simple (.exprStmt [⟨.pygmt, .showFig⟩])],
  -- cell 19: previous cell plus fig.colorbar(frame=["a", "y+lDepth (km)"])
  [.simple (.assign .fig [⟨.pygmt, .Figure⟩]), .simple (.exprStmt [⟨.pygmt, .coast⟩]),
   .simple (.exprStmt [⟨.pygmt, .makecpt⟩, ⟨.pandas, .min⟩, ⟨.pandas, .max⟩]),
   .simple (.exprStmt [⟨.pygmt, .plot⟩]), .simple (.exprStmt [⟨.pygmt, .basemap⟩]),
   .simple (.exprStmt [⟨.pygmt, .colorbar⟩]), .simple (.exprStmt [⟨.pygmt, .showFig⟩])]]

/-- The code cells of the Mars-maps notebook, in order. -/
def marsCells : List Cell := [
  -- cell 1: `!wget …/mola32.nc` (shell magic, downloads the Mars topography file)
  [.shellCmd],
  -- cell 2: `import xarray as xr`; dset_mars = xr.open_dataset(…); dset_mars
  [.importLib .xarray, .simple (.assign .dset_mars [⟨.xarray, .open_dataset⟩]),
   .simple (.exprStmt [])],
  -- cell 3: `import pygmt`; dset_mars_topo = dset_mars.alt.astype(float);
  --   dset_mars_topo = pygmt.grdsample(grid=dset_mars_topo, translate=True, spacing=[1,1])
  [.importLib .pygmt, .simple (.assign .dset_mars_topo [⟨.xarray, .astype⟩]),
   .simple (.assign .dset_mars_topo [⟨.pygmt, .grdsample⟩])],
  -- cell 4: fig = pygmt.Figure(); fig.grdimage(…); fig.colorbar(…); fig.show()
  [.simple (.assign .fig [⟨.pygmt, .Figure⟩]), .simple (.exprStmt [⟨.pygmt, .grdimage⟩]),
   .simple (.exprStmt [⟨.pygmt, .colorbar⟩]), .simple (.exprStmt [⟨.pygmt, .showFig⟩])],
  -- cell 5: dset_olympus = dset_mars.sel(latitude=slice(25,13), longitude=slice(210,240)).alt.astype(float);
  --   dset_olympus.plot()   ← the xarray (matplotlib-backed) plotting interface
  [.simple (.assign .dset_olympus [⟨.xarray, .sel⟩, ⟨.xarray, .astype⟩]),
   .simple (.exprStmt [⟨.xarray, .plot⟩])],
  -- cell 6: fig = pygmt.Figure(); fig.grdview(…); bounds = [[210,13],…];
  --   fig.colorbar(…); with fig.inset(…): fig.grdimage(…); fig.plot(bounds, …); fig.show()
  [.simple (.assign .fig [⟨.pygmt, .Figure⟩]), .simple (.exprStmt [⟨.pygmt, .grdview⟩]),
   .simple (.assign .bounds []), .simple (.exprStmt [⟨.pygmt, .colorbar⟩]),
   .withBlock ⟨.pygmt, .inset⟩
     [.simple (.exprStmt [⟨.pygmt, .grdimage⟩]), .simple (.exprStmt [⟨.pygmt, .plot⟩])],
   .simple (.exprStmt [⟨.pygmt, .showFig⟩])]]

/-- The code cells of the scientific-Python-ecosystem notebook, in order. -/
def ecosystemCells : List Cell := [
  -- cell 1: `import pygmt`; `import geopandas as gpd`
  [.importLib .pygmt, .importLib .geopandas],
  -- cell 2: world = gpd.read_file(gpd.datasets.get_path(…)); world.head()
  [.simple (.assign .world [⟨.geopandas, .read_file⟩, ⟨.geopandas, .get_path⟩]),
   .simple (.exprStmt [⟨.geopandas, .head⟩])],
  -- cell 3: world = world[(world.pop_est>0) & (world.name!="Antarctica")];
  --   world["pop_est"] = world.pop_est * 1e-6;
  --   cmap_bounds = pygmt.info(data=world["pop_est"], per_column=True); cmap_bounds
  [.simple (.assign .world [⟨.geopandas, .getitem_mask⟩]),
   .simple (.assign .world_pop_est [⟨.pandas, .series_mul⟩]),
   .simple (.assign .cmap_bounds [⟨.pygmt, .info⟩]), .simple (.exprStmt [])],
  -- cell 4: fig = pygmt.Figure(); pygmt.makecpt(…); fig.basemap(…);
  --   fig.plot(data=world, …); fig.colorbar(…); fig.show()
  [.simple (.assign .fig [⟨.pygmt, .Figure⟩]), .simple (.exprStmt [⟨.pygmt, .makecpt⟩]),
   .simple (.exprStmt [⟨.pygmt, .basemap⟩]), .simple (.exprStmt [⟨.pygmt, .plot⟩]),
   .simple (.exprStmt [⟨.pygmt, .colorbar⟩]), .simple (.exprStmt [⟨.pygmt, .showFig⟩])],
  -- cell 5: `import panel as pn`; `import xarray as xr`; `import pygmt`; pn.extension()
  [.importLib .panel, .importLib .xarray, .importLib .pygmt,
   .simple (.exprStmt [⟨.panel, .extension⟩])],
  -- cell 6: url = "…"; netcdf_file = pygmt.which(fname=url, download=True);
  --   woa_temp = xr.open_dataset(netcdf_file).isel(time=0); woa_temp
  [.simple (.assign .url []), .simple (.assign .netcdf_file [⟨.pygmt, .which⟩]),
   .simple (.assign .woa_temp [⟨.xarray, .open_dataset⟩, ⟨.xarray, .isel⟩]),
   .simple (.exprStmt [])],
  -- cell 7: fig = pygmt.Figure(); fig.grdimage(grid=woa_temp.t_an.sel(depth=0), …); fig.show()
  [.simple (.assign .fig [⟨.pygmt, .Figure⟩]),
   .simple (.exprStmt [⟨.pygmt, .grdimage⟩, ⟨.xarray, .sel⟩]),
   .simple (.exprStmt [⟨.pygmt, .showFig⟩])],
  -- cell 8: depth_slider = pn.widgets.DiscreteSlider(…)
  [.simple (.assign .depth_slider [⟨.panel, .DiscreteSlider⟩])],
  -- cell 9: @pn.depends(depth=depth_slider) def view(depth): fig = pygmt.Figure();
  --   pygmt.makecpt(…); fig.grdimage(grid=woa_temp.t_an.sel(depth=depth), …);
  --   fig.colorbar(…); return fig
  [.funcDef .view [⟨.panel, .depends⟩]
    [.assign .fig [⟨.pygmt, .Figure⟩], .exprStmt [⟨.pygmt, .makecpt⟩],
     .exprStmt [⟨.pygmt, .grdimage⟩, ⟨.xarray, .sel⟩], .exprStmt [⟨.pygmt, .colorbar⟩],
     .ret []]],
  -- cell 10: pn.Column(depth_slider, view)
  [.simple (.exprStmt [⟨.panel, .Column⟩])]]

/-- The code cells of `book/lidar_to_surface.ipynb`, in order. -/
def lidarCells : List Cell := [
  -- cell 1: `import laspy / pandas / pygmt / rioxarray / xarray`
  [.importLib .laspy, .importLib .pandas, .importLib .pygmt, .importLib .rioxarray,
   .importLib .xarray],
  -- cell 2: lazfile = pygmt.which(fname="…laz", download=True); print(lazfile)
  [.simple (.assign .lazfile [⟨.pygmt, .which⟩]), .simple (.exprStmt [])],
  -- cell 3: lazdata = laspy.read(source=lazfile); df = pd.DataFrame(data={x/y/z scaled_array, classification})
  [.simple (.assign .lazdata [⟨.laspy, .read⟩]),
   .simple (.assign .df [⟨.pandas, .DataFrame⟩, ⟨.laspy, .scaled_array⟩,
     ⟨.laspy, .scaled_array⟩, ⟨.laspy, .scaled_array⟩])],
  -- cell 4: region = pygmt.info(data=df[["x","y"]], spacing=1); print(…)
  [.simple (.assign .region [⟨.pygmt, .info⟩]), .simple (.exprStmt [])],
  -- cell 5: print(f"Total of {len(df)} data points"); df.describe()
  [.simple (.exprStmt []), .simple (.exprStmt [⟨.pandas, .describe⟩])],
  -- cell 6: df_filtered = df.iloc[::20]; print(…)
  [.simple (.assign .df_filtered [⟨.pandas, .iloc⟩]), .simple (.exprStmt [])],
  -- cell 7: fig = pygmt.Figure(); fig.basemap(…); pygmt.makecpt(series=[df.z.min(), df.z.max()]);
  --   fig.plot(…); fig.colorbar(…); fig.show()
  [.simple (.assign .fig [⟨.pygmt, .Figure⟩]), .simple (.exprStmt [⟨.pygmt, .basemap⟩]),
   .simple (.exprStmt [⟨.pygmt, .makecpt⟩, ⟨.pandas, .min⟩, ⟨.pandas, .max⟩]),
   .simple (.exprStmt [⟨.pygmt, .plot⟩]), .simple (.exprStmt [⟨.pygmt, .colorbar⟩]),
   .simple (.exprStmt [⟨.pygmt, .showFig⟩])],
  -- cell 8: df = df.query(expr="classification != 18"); df
  [.simple (.assign .df [⟨.pandas, .query⟩]), .simple (.exprStmt [])],
  -- cell 9: df_trimmed = pygmt.blockmedian(data=df[["x","y","z"]], T=0.99, spacing="1+e", region=region); df_trimmed
  [.simple (.assign .df_trimmed [⟨.pygmt, .blockmedian⟩]), .simple (.exprStmt [])],
  -- cell 10: grid = pygmt.surface(x=…, y=…, z=…, spacing="1+e", region=region, T=0.35)
  [.simple (.assign .grid [⟨.pygmt, .surface⟩])],
  -- cell 11: bare `grid`
  [.simple (.exprStmt [])],
  -- cell 12: fig2 = pygmt.Figure(); fig2.basemap(region=[1_749_760, 1_750_240, 5_426_880, 5_427_600], …);
  --   pygmt.makecpt(…); fig2.grdimage(grid=grid, cmap=True); fig2.colorbar(…); fig2.show()
  [.simple (.assign .fig2 [⟨.pygmt, .Figure⟩]), .simple (.exprStmt [⟨.pygmt, .basemap⟩]),
   .simple (.exprStmt [⟨.pygmt, .makecpt⟩]), .simple (.exprStmt [⟨.pygmt, .grdimage⟩]),
   .simple (.exprStmt [⟨.pygmt, .colorbar⟩]), .simple (.exprStmt [⟨.pygmt, .showFig⟩])],
  -- cell 13: fig3 = pygmt.Figure(); fig3.grdview(grid=grid, …); fig3.show()
  [.simple (.assign .fig3 [⟨.pygmt, .Figure⟩]), .simple (.exprStmt [⟨.pygmt, .grdview⟩]),
   .simple (.exprStmt [⟨.pygmt, .showFig⟩])],
  -- cell 14: fig3 = pygmt.Figure(); fig3.grdview(… shading=True, frame=[…Easting…Northing…]); fig3.show()
  [.simple (.assign .fig3 [⟨.pygmt, .Figure⟩]), .simple (.exprStmt [⟨.pygmt, .grdview⟩]),
   .simple (.exprStmt [⟨.pygmt, .showFig⟩])],
  -- cell 15: fig.savefig(…); fig2.savefig(…); fig3.savefig(…)
  [.simple (.exprStmt [⟨.pygmt, .savefig⟩]), .simple (.exprStmt [⟨.pygmt, .savefig⟩]),
   .simple (.exprStmt [⟨.pygmt, .savefig⟩])],
  -- cell 16: grid.rio.to_raster(raster_path="DSM_of_Wellington.tif")
  [.simple (.exprStmt [⟨.rioxarray, .to_raster⟩])],
  -- cell 17 (bonus): filenames = […]; df = pd.DataFrame();
  --   for fname in filenames: lazfile = pygmt.which(…); lazdata = laspy.read(…);
  --     temp_df = pd.DataFrame(…scaled_array…); df = df.append(temp_df, ignore_index=True)
  [.simple (.assign .filenames []), .simple (.assign .df [⟨.pandas, .DataFrame⟩]),
   .forLoop [.assign .lazfile [⟨.pygmt, .which⟩], .assign .lazdata [⟨.laspy, .read⟩],
     .assign .temp_df [⟨.pandas, .DataFrame⟩, ⟨.laspy, .scaled_array⟩,
       ⟨.laspy, .scaled_array⟩, ⟨.laspy, .scaled_array⟩],
     .assign .df [⟨.pandas, .append⟩]]],
  -- cell 18: bare `df`
  [.simple (.exprStmt [])],
  -- cell 19: `# Run blockmedian` (comment-only placeholder)
  [.simple .commentOnly],
  -- cell 20: `# Run surface`
  [.simple .commentOnly],
  -- cell 21: `# Run grdimage`
  [.simple .commentOnly],
  -- cell 22: `# Run grdview`
  [.simple .commentOnly]]

/-- The code cells of the extended Mars-maps notebook ("Making some Mars
maps with pygmt (extended)"), in order. -/
def marsExtendedCells : List Cell := [
  -- cell 1: the colab install cell, neutralized by the `%%script echo skipping`
  --   cell magic; `%%capture` plus shell commands (apt update/upgrade/install,
  --   git clone of gmt, two cmake invocations, pip install pygmt, gmt/python
  --   version checks)
  [.magicCmd, .magicCmd, .shellCmd, .shellCmd, .shellCmd, .shellCmd, .shellCmd,
   .shellCmd, .shellCmd, .shellCmd, .shellCmd],
  -- cell 2: `!wget …/mola32.nc`
  [.shellCmd],
  -- cell 3: `%matplotlib inline`
  [.magicCmd],
  -- cell 4: `import xarray as xr`; dset_mars = xr.open_dataset("mola32.nc"); dset_mars
  [.importLib .xarray, .simple (.assign .dset_mars [⟨.xarray, .open_dataset⟩]),
   .simple (.exprStmt [])],
  -- cell 5: `import pygmt`; dset_mars_topo = dset_mars.alt.astype(float);
  --   dset_mars_topo = pygmt.grdsample(grid=dset_mars_topo, translate=True, spacing=[1,1])
  [.importLib .pygmt, .simple (.assign .dset_mars_topo [⟨.xarray, .astype⟩]),
   .simple (.assign .dset_mars_topo [⟨.pygmt, .grdsample⟩])],
  -- cell 6: fig = pygmt.Figure(); fig.grdimage(grid=dset_mars_topo, region="g",
  --   frame=True, projection="Cyl_stere/0/0/12c"); fig.colorbar(…); fig.show()
  [.simple (.assign .fig [⟨.pygmt, .Figure⟩]), .simple (.exprStmt [⟨.pygmt, .grdimage⟩]),
   .simple (.exprStmt [⟨.pygmt, .colorbar⟩]), .simple (.exprStmt [⟨.pygmt, .showFig⟩])],
  -- cell 7: dset_olympus = dset_mars.sel(latitude=slice(25,13),
  --   longitude=slice(210,240)).alt.astype("float"); dset_olympus.plot()
  --   ← the second xarray plotting call of the repository
  [.simple (.assign .dset_olympus [⟨.xarray, .sel⟩, ⟨.xarray, .astype⟩]),
   .simple (.exprStmt [⟨.xarray, .plot⟩])],
  -- cell 8: fig = pygmt.Figure(); fig.grdimage(grid=dset_olympus, projection="M12c",
  --   frame="a5f1", cmap="geo"); fig.colorbar(…); fig.show()
  [.simple (.assign .fig [⟨.pygmt, .Figure⟩]), .simple (.exprStmt [⟨.pygmt, .grdimage⟩]),
   .simple (.exprStmt [⟨.pygmt, .colorbar⟩]), .simple (.exprStmt [⟨.pygmt, .showFig⟩])],
  -- cell 9: fig = pygmt.Figure(); topo_cpt = pygmt.makecpt(…); frame = […];
  --   fig.grdview(grid=dset_olympus, region=[210,240,13,25,-5000,23000], …);
  --   fig.colorbar(perspective=True, …); bounds = [[210.,13.], …];
  --   with fig.inset(…): fig.grdimage(grid=dset_mars_topo, region="g", …);
  --     fig.plot(bounds, pen="1p,red")
  --   fig.show()
  [.simple (.assign .fig [⟨.pygmt, .Figure⟩]),
   .simple (.assign .topo_cpt [⟨.pygmt, .makecpt⟩]), .simple (.assign .frame []),
   .simple (.exprStmt [⟨.pygmt, .grdview⟩]), .simple (.exprStmt [⟨.pygmt, .colorbar⟩]),
   .simple (.assign .bounds []),
   .withBlock ⟨.pygmt, .inset⟩
     [.simple (.exprStmt [⟨.pygmt, .grdimage⟩]), .simple (.exprStmt [⟨.pygmt, .plot⟩])],
   .simple (.exprStmt [⟨.pygmt, .showFig⟩])],
  -- cell 10: topo_hawaii = pygmt.datasets.load_earth_relief(region=[-170,-140,13,25],
  --   resolution="05m"); topo_globe = pygmt.datasets.load_earth_relief(
  --   region=[-180,180,-90,90], resolution="01d")
  [.simple (.assign .topo_hawaii [⟨.pygmt, .load_earth_relief⟩]),
   .simple (.assign .topo_globe [⟨.pygmt, .load_earth_relief⟩])],
  -- cell 11: fig = pygmt.Figure(); fig.grdimage(grid=topo_hawaii, projection="M12c",
  --   frame="a5f1", cmap="geo"); fig.colorbar(…); fig.show()
  [.simple (.assign .fig [⟨.pygmt, .Figure⟩]), .simple (.exprStmt [⟨.pygmt, .grdimage⟩]),
   .simple (.exprStmt [⟨.pygmt, .colorbar⟩]), .simple (.exprStmt [⟨.pygmt, .showFig⟩])],
  -- cell 12: fig = pygmt.Figure(); frame = […]; topo_cpt = pygmt.makecpt(…);
  --   fig.grdview(grid=topo_hawaii, region=[-170,-140,13,25,-5000,23000], …);
  --   fig.colorbar(perspective=True, …); bounds = [[-170.,13.], …];
  --   with fig.inset(…): fig.grdimage(grid=topo_globe, region="g", …);
  --     fig.coast(region="g", shorelines="thin", frame="g"); fig.plot(bounds, …)
  --   fig.show()
  [.simple (.assign .fig [⟨.pygmt, .Figure⟩]), .simple (.assign .frame []),
   .simple (.assign .topo_cpt [⟨.pygmt, .makecpt⟩]),
   .simple (.exprStmt [⟨.pygmt, .grdview⟩]), .simple (.exprStmt [⟨.pygmt, .colorbar⟩]),
   .simple (.assign .bounds []),
   .withBlock ⟨.pygmt, .inset⟩
     [.simple (.exprStmt [⟨.pygmt, .grdimage⟩]), .simple (.exprStmt [⟨.pygmt, .coast⟩]),
      .simple (.exprStmt [⟨.pygmt, .plot⟩])],
   .simple (.exprStmt [⟨.pygmt, .showFig⟩])],
  -- cell 13: fig = pygmt.Figure();
  --   with fig.subplot(nrows=1, ncols=2, figsize=…, autolabel=True, margins="1c"):
  --     with fig.set_panel(panel=0): topo_cpt = pygmt.makecpt(…); frame = […];
  --       fig.grdview(grid=dset_olympus, region=[210,240,13,25,-5000,23000], …)
  --     with fig.set_panel(panel=1): frame = […]; topo_cpt = pygmt.makecpt(…);
  --       fig.grdview(grid=topo_hawaii, region=[-170,-140,13,25,-5000,23000], …);
  --       fig.colorbar(perspective=True, …)
  --   fig.show()
  [.simple (.assign .fig [⟨.pygmt, .Figure⟩]),
   .withBlock ⟨.pygmt, .subplot⟩
     [.withBlock ⟨.pygmt, .set_panel⟩
        [.assign .topo_cpt [⟨.pygmt, .makecpt⟩], .assign .frame [],
         .exprStmt [⟨.pygmt, .grdview⟩]],
      .withBlock ⟨.pygmt, .set_panel⟩
        [.assign .frame [], .assign .topo_cpt [⟨.pygmt, .makecpt⟩],
         .exprStmt [⟨.pygmt, .grdview⟩], .exprStmt [⟨.pygmt, .colorbar⟩]]],
   .simple (.exprStmt [⟨.pygmt, .showFig⟩])],
  -- cell 14: fig = pygmt.Figure(); fig.grdimage(grid=dset_mars_topo, region="g",
  --   frame="g", projection="G109.926/25.066/12c…", shading=…);
  --   zhurong = [109.926, 25.066]; Olympus = [360-210, 19.0];
  --   fig.plot(x=zhurong[0], y=zhurong[1], style="a0.5c", …); fig.text(… "Zhurong" …);
  --   fig.text(… "Olympus Mons" …); fig.colorbar(…); fig.show()
  [.simple (.assign .fig [⟨.pygmt, .Figure⟩]), .simple (.exprStmt [⟨.pygmt, .grdimage⟩]),
   .simple (.assign .zhurong []), .simple (.assign .Olympus []),
   .simple (.exprStmt [⟨.pygmt, .plot⟩]), .simple (.exprStmt [⟨.pygmt, .text⟩]),
   .simple (.exprStmt [⟨.pygmt, .text⟩]), .simple (.exprStmt [⟨.pygmt, .colorbar⟩]),
   .simple (.exprStmt [⟨.pygmt, .showFig⟩])]]

/-- Every code cell of the repository, in notebook order: the first-figure,
Mars, ecosystem and LiDAR notebooks followed by the extended Mars notebook. -/
def allCells : List Cell :=
  firstFigureCells ++ marsCells ++ ecosystemCells ++ lidarCells ++ marsExtendedCells

/-- A statement is trivial glue: an import, a shell command, an IPython
line/cell magic, a plain literal assignment with no external call, a bare
display or builtin `print`, or a comment-only placeholder.  Such a statement
performs no original computation and invokes no external library. -/
def Stmt.isTrivialGlue : Stmt → Bool
  | .importLib _ => true
  | .shellCmd => true
  | .magicCmd => true
  | .simple (.assign _ []) => true
  | .simple (.exprStmt []) => true
  | .simple .commentOnly => true
  | _ => false

/-- A cell consisting only of trivial glue statements. -/
def cellTrivialGlue (c : Cell) : Bool :=
  c.all Stmt.isTrivialGlue

/-- Whether a call belongs to a plotting interface: creating a figure, laying
down coastlines, basemaps, point/polygon plots, text labels, grid images, 3D
views, colorbars, insets, subplot panels, or showing/saving a figure.
`⟨.xarray, .plot⟩` (the `.plot()` method of an `xarray.DataArray`, backed by
matplotlib) is a plotting call of a library other than pygmt. -/
def ExtCall.isPlotCall (e : ExtCall) : Bool :=
  [Fn.Figure, Fn.coast, Fn.basemap, Fn.plot, Fn.grdimage, Fn.grdview,
   Fn.colorbar, Fn.inset, Fn.showFig, Fn.savefig, Fn.text, Fn.subplot,
   Fn.set_panel].contains e.fn

/-- A cell realizes a processing step by the single external call `e`: the
cell is straight-line, the only external call it makes is `e`, and every
other statement is a plain assignment, display or print. -/
def realizedBySingleCall (c : Cell) (e : ExtCall) : Bool :=
  cellCalls c == [e] && c.all fun s =>
    match s with
    | .simple _ => true
    | _ => false

/-- A statement that performs failure handling: a `try`/`except` block or a
conditional branch (e.g. on an error code).  Neither construct occurs in any
notebook cell. -/
def Stmt.isFailureHandling : Stmt → Bool
  | .tryExcept _ _ => true
  | .ifBranch _ _ => true
  | _ => false

/-- A pygmt figure-layout context manager: `fig.inset(…)`, `fig.subplot(…)`
or `fig.set_panel(…)`.  These are the only context managers used by the
notebooks; each scopes plotting state inside the library. -/
def ExtCall.isPlottingCtx (e : ExtCall) : Bool :=
  e.lib == Lib.pygmt && [Fn.inset, Fn.subplot, Fn.set_panel].contains e.fn

/-- A nested `with` block whose context manager is not a pygmt figure-layout
scope. -/
def BlockStmt.isNonPlottingCtx : BlockStmt → Bool
  | .withBlock ctx _ => !ctx.isPlottingCtx
  | .simple _ => false

/-- A statement containing a `with` block, at either nesting level, whose
context manager is anything other than a pygmt figure-layout plotting scope
(`fig.inset`, `fig.subplot`, `fig.set_panel`).  A `with` around any other
context (an open file, a connection, a lock) would count as explicit
resource acquisition/cleanup. -/
def Stmt.isNonPlottingCtx : Stmt → Bool
  | .withBlock ctx body => !ctx.isPlottingCtx || body.any BlockStmt.isNonPlottingCtx
  | _ => false

/-! ### The Mars notebook bounds polygon and Olympus Mons region -/

/-- The `bounds` polygon of the Mars notebook, drawn with
`fig.plot(bounds, pen="1p,red")` on the inset map:
`bounds = [[210,13], [210,25], [240,25], [240,13], [210,13]]`. -/
def boundsPolygon : List (Int × Int) :=
  [(210, 13), (210, 25), (240, 25), (240, 13), (210, 13)]

/-- The `region=[210,240,13,25,-5000,23000]` argument of `fig.grdview` in the
Mars notebook (west, east, south, north, zmin, zmax). -/
def grdviewRegion : List Int :=
  [210, 240, 13, 25, -5000, 23000]

/-- The latitude slice of the Olympus Mons cutout
`dset_mars.sel(latitude=slice(25,13), …)` (the MOLA latitudes run
north-to-south, so the slice starts at 25 and ends at 13). -/
def olympusLatSlice : Int × Int := (25, 13)

/-- The longitude slice of the Olympus Mons cutout
`dset_mars.sel(…, longitude=slice(210,240))`. -/
def olympusLonSlice : Int × Int := (210, 240)

/-- The four corners of a west/east/south/north region, traversed in the
order (w,s), (w,n), (e,n), (e,s). -/
def regionCorners (w e s n : Int) : List (Int × Int) :=
  [(w, s), (w, n), (e, n), (e, s)]

/-! ### Grids passed to / returned from the grid operations -/

/-- The grids handled by the notebooks. -/
inductive GridId
  | marsTopo32
  | marsSampled
  | olympus
  | woaTemp
  | dsm
  | hawaii
  | earthGlobe
deriving DecidableEq

/-- One use of a grid by a grid operation, with the grid's dimensionality and
the west/east/south/north extent of its coordinate axes as given by the
source.  Provenance of the extents:
* `marsTopo32` (`dset_mars.alt`): the notebook loads `mola32.nc` whose
  longitudes run 0–360° and latitudes north to south (−90–90), per the
  notebook's own description of the file;
* `marsSampled` (`dset_mars_topo`): the 1×1° `grdsample` output of the
  above, plotted with `region="g"` (global 0–360, −90–90);
* `olympus` (`dset_olympus`): the `sel(latitude=slice(25,13),
  longitude=slice(210,240))` cutout;
* `woaTemp` (`woa_temp.t_an.sel(depth=…)`): the World Ocean Atlas global
  1×1° grid (after `isel(time=0)` and selecting a depth, 2-dimensional);
* `dsm` (`grid = pygmt.surface(…)`): the LiDAR digital surface model; its
  horizontal coordinates are the NZTM2000 easting/northing metres of the
  input points, hard-coded in the notebook as the display region
  `[1_749_760, 1_750_240, 5_426_880, 5_427_600]` of `fig2.basemap` and
  labelled `Easting`/`Northing` in the `fig3.grdview` frame;
* `hawaii` (`topo_hawaii`): the Earth-relief cutout loaded in the extended
  Mars notebook with `load_earth_relief(region=[-170,-140,13,25], …)`;
* `earthGlobe` (`topo_globe`): the global Earth relief loaded with
  `load_earth_relief(region=[-180,180,-90,90], …)`. -/
structure GridUse where
  gid : GridId
  op : Fn
  ndim : Nat
  west : Int
  east : Int
  south : Int
  north : Int
deriving DecidableEq

/-- Every grid use of the notebooks: each grid passed to or returned from
`grdsample`, `surface`, `grdimage` and `grdview`, ordered by notebook (Mars,
ecosystem, LiDAR, then the extended Mars notebook). -/
def gridUses : List GridUse := [
  -- pygmt.grdsample(grid=dset_mars_topo, translate=True, spacing=[1,1])
  ⟨.marsTopo32, .grdsample, 2, 0, 360, -90, 90⟩,
  -- fig.grdimage(grid=dset_mars_topo, region="g", frame=True, projection="W12c")
  ⟨.marsSampled, .grdimage, 2, 0, 360, -90, 90⟩,
  -- fig.grdview(grid=dset_olympus, region=[210,240,13,25,-5000,23000], …)
  ⟨.olympus, .grdview, 2, 210, 240, 13, 25⟩,
  -- fig.grdimage(grid=dset_mars_topo, region="g", …) inside `with fig.inset(…)`
  ⟨.marsSampled, .grdimage, 2, 0, 360, -90, 90⟩,
  -- fig.grdimage(grid=woa_temp.t_an.sel(depth=0), cmap="vik", …)
  ⟨.woaTemp, .grdimage, 2, 0, 360, -90, 90⟩,
  -- fig.grdimage(grid=woa_temp.t_an.sel(depth=depth), …) inside `view`
  ⟨.woaTemp, .grdimage, 2, 0, 360, -90, 90⟩,
  -- grid = pygmt.surface(x=…, y=…, z=…, spacing="1+e", region=region, T=0.35)
  ⟨.dsm, .surface, 2, 1749760, 1750240, 5426880, 5427600⟩,
  -- fig2.grdimage(grid=grid, cmap=True), displayed over the hard-coded region
  ⟨.dsm, .grdimage, 2, 1749760, 1750240, 5426880, 5427600⟩,
  -- fig3.grdview(grid=grid, …), first plain 3D view
  ⟨.dsm, .grdview, 2, 1749760, 1750240, 5426880, 5427600⟩,
  -- fig3.grdview(grid=grid, … frame=["xaf+lEasting", "yaf+lNorthing", …])
  ⟨.dsm, .grdview, 2, 1749760, 1750240, 5426880, 5427600⟩,
  -- extended Mars notebook, cell 5: pygmt.grdsample(grid=dset_mars_topo, …)
  ⟨.marsTopo32, .grdsample, 2, 0, 360, -90, 90⟩,
  -- extended cell 6: fig.grdimage(grid=dset_mars_topo, region="g", projection="Cyl_stere/0/0/12c")
  ⟨.marsSampled, .grdimage, 2, 0, 360, -90, 90⟩,
  -- extended cell 8: fig.grdimage(grid=dset_olympus, projection="M12c", …)
  ⟨.olympus, .grdimage, 2, 210, 240, 13, 25⟩,
  -- extended cell 9: fig.grdview(grid=dset_olympus, region=[210,240,13,25,-5000,23000], …)
  ⟨.olympus, .grdview, 2, 210, 240, 13, 25⟩,
  -- extended cell 9: fig.grdimage(grid=dset_mars_topo, region="g", …) inside `with fig.inset(…)`
  ⟨.marsSampled, .grdimage, 2, 0, 360, -90, 90⟩,
  -- extended cell 11: fig.grdimage(grid=topo_hawaii, projection="M12c", …)
  ⟨.hawaii, .grdimage, 2, -170, -140, 13, 25⟩,
  -- extended cell 12: fig.grdview(grid=topo_hawaii, region=[-170,-140,13,25,-5000,23000], …)
  ⟨.hawaii, .grdview, 2, -170, -140, 13, 25⟩,
  -- extended cell 12: fig.grdimage(grid=topo_globe, region="g", …) inside `with fig.inset(…)`
  ⟨.earthGlobe, .grdimage, 2, -180, 180, -90, 90⟩,
  -- extended cell 13, panel 0: fig.grdview(grid=dset_olympus, region=[210,240,13,25,-5000,23000], …)
  ⟨.olympus, .grdview, 2, 210, 240, 13, 25⟩,
  -- extended cell 13, panel 1: fig.grdview(grid=topo_hawaii, region=[-170,-140,13,25,-5000,23000], …)
  ⟨.hawaii, .grdview, 2, -170, -140, 13, 25⟩,
  -- extended cell 14: fig.grdimage(grid=dset_mars_topo, region="g", projection="G109.926/25.066/12c…")
  ⟨.marsSampled, .grdimage, 2, 0, 360, -90, 90⟩]

/-- A grid's coordinate axes can be geographic longitude/latitude only if the
x-extent lies within −360–360° and the y-extent within −90–90° of latitude. -/
def GridUse.isGeographic (g : GridUse) : Bool :=
  (-360 ≤ g.west) && g.east ≤ 360 && -90 ≤ g.south && g.north ≤ 90

/-! ### The LiDAR point-cloud table and the notebook's own filters -/

/-- One row of the LiDAR `pandas.DataFrame` of `lidar_to_surface.ipynb`:
`df = pd.DataFrame(data={"x": …, "y": …, "z": …, "classification": …})`.
The scaled coordinates are real-valued (modelled by ℚ); the LAS
classification code is a small natural number. -/
structure LidarRow where
  x : ℚ
  y : ℚ
  z : ℚ
  classification : Nat
deriving DecidableEq

/-- The noise filter of the LiDAR notebook,
`df = df.query(expr="classification != 18")`: keep exactly the rows whose
classification is not 18, in order. -/
def queryNot18 (df : List LidarRow) : List LidarRow :=
  df.filter fun r => r.classification != 18

/-- Helper for positional slicing with a step: `ilocAux n k l` keeps the
element `k` positions ahead, then every `n`-th element after it. -/
def ilocAux (n : Nat) : Nat → List LidarRow → List LidarRow
  | _, [] => []
  | 0, x :: xs => x :: ilocAux n (n - 1) xs
  | k + 1, _ :: xs => ilocAux n k xs

/-- Python positional slicing `df.iloc[::n]`: the elements at positions
0, n, 2n, … in order. -/
def ilocEvery (n : Nat) (l : List LidarRow) : List LidarRow :=
  ilocAux n 0 l

/-- The downsampling of the LiDAR notebook, `df_filtered = df.iloc[::20]`. -/
def df_filtered (df : List LidarRow) : List LidarRow :=
  ilocEvery 20 df

/-! ### The GeoPandas world table of the ecosystem notebook -/

/-- One row of the `world` GeoDataFrame.  `pop_est` and `name` are the two
columns the filter and rescale touch; every other column (continent, gdp,
geometry, …) is bundled in `rest`. -/
structure WorldRow (α : Type) where
  pop_est : ℚ
  name : String
  rest : α
deriving DecidableEq

/-- The choropleth preprocessing of the ecosystem notebook:
`world = world[(world.pop_est>0) & (world.name!="Antarctica")]` followed by
`world["pop_est"] = world.pop_est * 1e-6` (the float literal `1e-6` is the
exact rational 1/1000000).  The resulting rows are what the notebook then
passes to `pygmt.info(data=world["pop_est"], …)` and
`fig.plot(data=world, …)`. -/
def worldFilterRescale {α : Type} (world : List (WorldRow α)) : List (WorldRow α) :=
  (world.filter fun r => decide (0 < r.pop_est) && r.name != "Antarctica").map
    fun r => { r with pop_est := r.pop_est * (1 / 1000000) }

/-! ## Helper lemmas -/

theorem ilocAux20_getElem? (l : List LidarRow) :
    ∀ k i : Nat, (ilocAux 20 k l)[i]? = l[k + 20 * i]? := by
  induction l with
  | nil => intro k i; simp [ilocAux]
  | cons x xs ih =>
    intro k i
    match k with
    | 0 =>
      match i with
      | 0 => simp [ilocAux]
      | i + 1 =>
        have h19 : (20 : Nat) - 1 = 19 := rfl
        simp only [ilocAux, h19, List.getElem?_cons_succ, ih 19 i]
        rw [show 0 + 20 * (i + 1) = (19 + 20 * i) + 1 by ring, List.getElem?_cons_succ]
    | k + 1 =>
      simp only [ilocAux, ih k i]
      rw [show (k + 1) + 20 * i = (k + 20 * i) + 1 by ring, List.getElem?_cons_succ]

theorem ilocAux20_length (l : List LidarRow) :
    ∀ k : Nat, k < 20 → (ilocAux 20 k l).length = (l.length + 19 - k) / 20 := by
  induction l with
  | nil => intro k hk; simp only [ilocAux, List.length_nil]; omega
  | cons x xs ih =>
    intro k hk
    match k with
    | 0 =>
      have h19 : (20 : Nat) - 1 = 19 := rfl
      simp only [ilocAux, h19, List.length_cons, ih 19 (by omega)]
      omega
    | k + 1 =>
      simp only [ilocAux, List.length_cons, ih k (by omega)]
      omega

/-! ## The claims -/

/-- C1, counterexample: not every code cell invokes an external-library
function or method.  The third code cell of `first-figure.ipynb` is the plain
assignment `region = [125, 155, 30, 55]` and makes no external-library call,
so the universal claim over all cells is false. -/
theorem c1_counterexample :
    cellHasExtCall (firstFigureCells.getD 2 []) = false ∧
    (allCells.all cellHasExtCall) = false := by decide

/-- C1, amended: every code cell of the five notebooks either invokes at
least one function or method of the external libraries (pygmt, geopandas,
xarray, pandas, laspy, rioxarray, panel), or consists solely of trivial glue
statements — imports, shell commands (the `wget` downloads and the
neutralized colab install cell), IPython magics (`%matplotlib inline`,
`%%script`, `%%capture`), plain literal assignments, bare variable
displays / prints, or comment-only placeholders — and in particular no cell
consists of original computation. -/
theorem c1_every_cell_library_call_or_trivial :
    (allCells.all fun c => cellHasExtCall c || cellTrivialGlue c) = true := by decide

/-- C2: each of the hardest steps of the LiDAR workflow — interpolating the
point cloud onto a regular grid (`pygmt.surface`), computing the bounding box
(`pygmt.info`), filtering noisy LiDAR returns (`df.query`), and spatially
trimming the points (`pygmt.blockmedian`) — is realized in its cell by a
single call into an external, already-implemented routine, the remaining
statements of those cells being plain displays or prints. -/
theorem c2_hard_steps_single_calls :
    realizedBySingleCall (lidarCells.getD 9 []) ⟨.pygmt, .surface⟩ = true ∧
    realizedBySingleCall (lidarCells.getD 3 []) ⟨.pygmt, .info⟩ = true ∧
    realizedBySingleCall (lidarCells.getD 7 []) ⟨.pandas, .query⟩ = true ∧
    realizedBySingleCall (lidarCells.getD 8 []) ⟨.pygmt, .blockmedian⟩ = true := by decide

/-- C3: the noise filter `df.query(expr="classification != 18")` returns
exactly the rows whose classification is not 18: no returned row has
classification 18, every row with classification ≠ 18 is retained, every
returned row is a row of the input (x, y, z and classification unchanged),
and the result is a sublist of the input (original order). -/
theorem c3_query_removes_class18 (df : List LidarRow) :
    (∀ r ∈ queryNot18 df, r.classification ≠ 18 ∧ r ∈ df) ∧
    (∀ r ∈ df, r.classification ≠ 18 → r ∈ queryNot18 df) ∧
    (queryNot18 df).Sublist df := by
  refine ⟨fun r hr => ?_, fun r hr hc => ?_, List.filter_sublist df⟩
  · have h := List.mem_filter.mp hr
    exact ⟨by simpa using h.2, h.1⟩
  · exact List.mem_filter.mpr ⟨hr, by simpa using hc⟩

/-- Witness for C3 at a concrete two-row table: the non-noise row is
retained by the filter. -/
theorem c3_query_removes_class18_witness :
    (⟨1, 2, 3, 2⟩ : LidarRow) ∈ queryNot18 [⟨0, 0, 0, 18⟩, ⟨1, 2, 3, 2⟩] :=
  (c3_query_removes_class18 [⟨0, 0, 0, 18⟩, ⟨1, 2, 3, 2⟩]).2.1 _ (by decide) (by decide)

/-- C4, counterexample: not every grid handled by the grid operations has
geographic longitude/latitude axes.  The digital surface model returned by
`pygmt.surface` in the LiDAR notebook lives on NZTM2000 easting/northing
metre coordinates (south bound 5 426 880, far outside the −90…90° latitude
range), so the universal claim over all grid uses is false. -/
theorem c4_counterexample :
    (gridUses.getD 6 ⟨.dsm, .surface, 0, 0, 0, 0, 0⟩).isGeographic = false ∧
    (gridUses.getD 6 ⟨.dsm, .surface, 0, 0, 0, 0, 0⟩).south = 5426880 ∧
    (gridUses.all fun g => (g.ndim == 2) && g.isGeographic) = false := by decide

/-- C4, amended: every grid passed to or returned from `grdsample`,
`surface`, `grdimage` and `grdview` is a 2-dimensional array, and every such
grid except the LiDAR digital surface model has geographic
longitude/latitude axes; the DSM's axes are projected easting/northing
coordinates in metres, outside any longitude/latitude range. -/
theorem c4_grids_2d_lonlat_except_dsm :
    (gridUses.all fun g => g.ndim == 2) = true ∧
    (gridUses.all fun g => g.isGeographic || g.gid == .dsm) = true ∧
    (gridUses.all fun g => !(g.gid == .dsm) || (90 < g.south && 360 < g.west)) = true := by
  decide

/-- C5, counterexample: not all plotting goes through pygmt.  The Mars
notebook cell `dset_olympus.plot()` invokes the plotting interface of
xarray (matplotlib-backed), a plotting call whose library is not pygmt, so
the universal claim over all calls of all cells is false. -/
theorem c5_counterexample :
    ((cellCalls (marsCells.getD 4 [])).contains ⟨.xarray, .plot⟩) = true ∧
    ExtCall.isPlotCall ⟨.xarray, .plot⟩ = true ∧
    (allCells.all fun c =>
      (cellCalls c).all fun e => !e.isPlotCall || e.lib == .pygmt) = false := by decide

/-- C5, amended: every plotting call in every code cell goes through pygmt,
except for the `dset_olympus.plot()` xarray call, which occurs exactly twice
across all cells — once in the Mars notebook and once in the extended Mars
notebook. -/
theorem c5_plots_pygmt_except_xarray_plot :
    (allCells.all fun c => (cellCalls c).all fun e =>
      !e.isPlotCall || e.lib == Lib.pygmt || e == ⟨Lib.xarray, Fn.plot⟩) = true ∧
    ((allCells.map cellCalls).flatten.count ⟨Lib.xarray, Fn.plot⟩) = 2 := by decide

/-- C6: the notebooks invoke each of the four named pygmt plotting
operations: some cell calls `Figure.coast`, some cell calls
`Figure.grdimage`, some cell calls `Figure.grdview`, and some cell calls
`Figure.colorbar`. -/
theorem c6_four_plotting_functions_used :
    (allCells.any fun c => (cellCalls c).contains ⟨Lib.pygmt, Fn.coast⟩) = true ∧
    (allCells.any fun c => (cellCalls c).contains ⟨Lib.pygmt, Fn.grdimage⟩) = true ∧
    (allCells.any fun c => (cellCalls c).contains ⟨Lib.pygmt, Fn.grdview⟩) = true ∧
    (allCells.any fun c => (cellCalls c).contains ⟨Lib.pygmt, Fn.colorbar⟩) = true := by
  decide

/-- C7: no code cell of any notebook contains failure handling or explicit
resource management: no cell has a `try`/`except` block or a conditional
branch (so nothing checks an error code or branches on failure, and library
exceptions propagate, including from the download cells), and every `with`
block, at either nesting level, is a pygmt figure-layout plotting scope
(`fig.inset`, `fig.subplot`, `fig.set_panel`), none a resource context. -/
theorem c7_no_failure_handling :
    (allCells.all fun c => c.all fun s =>
      !s.isFailureHandling && !s.isNonPlottingCtx) = true := by decide

/-- C8: the downsampling `df_filtered = df.iloc[::20]` returns the rows at
positions 0, 20, 40, … of the input, in order and unchanged (the i-th output
row is the (20·i)-th input row); its length is ⌈len(df)/20⌉ = (len(df)+19)/20,
so the result is non-empty whenever the input is. -/
theorem c8_iloc_every_20th (df : List LidarRow) :
    (∀ i : Nat, (df_filtered df)[i]? = df[20 * i]?) ∧
    (df_filtered df).length = (df.length + 19) / 20 ∧
    (df ≠ [] → df_filtered df ≠ []) := by
  refine ⟨fun i => ?_, ?_, fun h => ?_⟩
  · have h0 := ilocAux20_getElem? df 0 i
    simpa [df_filtered, ilocEvery] using h0
  · have h0 := ilocAux20_length df 0 (by omega)
    simpa [df_filtered, ilocEvery] using h0
  · intro hc
    have hlen0 : (ilocAux 20 0 df).length = 0 := by
      have h1 : ilocAux 20 0 df = [] := hc
      rw [h1]; rfl
    rw [ilocAux20_length df 0 (by omega)] at hlen0
    have hne : df.length ≠ 0 := fun h0 => h (List.length_eq_zero.mp h0)
    omega

/-- Witness for C8 at a concrete one-row table: the downsampled table of a
non-empty table is non-empty. -/
theorem c8_iloc_every_20th_witness :
    df_filtered [⟨0, 0, 0, 2⟩] ≠ [] :=
  (c8_iloc_every_20th [⟨0, 0, 0, 2⟩]).2.2 (List.cons_ne_nil _ _)

/-- C9: the `bounds` polygon of the Mars notebook is closed — its first
vertex (210, 13) equals its last — its four remaining vertices are distinct
and are exactly the four corners of the west/east/south/north region
[210, 240, 13, 25] that the `fig.grdview` region argument starts with, and
the Olympus Mons data cutout uses the same region: its longitude slice is
(west, east) and its latitude slice is (north, south) of that region. -/
theorem c9_bounds_closed_matches_region :
    boundsPolygon.head? = some (210, 13) ∧
    boundsPolygon.getLast? = boundsPolygon.head? ∧
    boundsPolygon.dropLast.Nodup ∧
    boundsPolygon.dropLast =
      regionCorners (grdviewRegion.getD 0 0) (grdviewRegion.getD 1 0)
        (grdviewRegion.getD 2 0) (grdviewRegion.getD 3 0) ∧
    olympusLonSlice = (grdviewRegion.getD 0 0, grdviewRegion.getD 1 0) ∧
    olympusLatSlice = (grdviewRegion.getD 3 0, grdviewRegion.getD 2 0) := by decide

/-- C10: after `world = world[(world.pop_est>0) & (world.name!="Antarctica")]`
and `world["pop_est"] = world.pop_est * 1e-6`, every resulting row has a
strictly positive `pop_est` equal to some original row's estimate times
1e-6, a name different from "Antarctica", and all other columns unchanged
from that original row; conversely every original row passing the filter is
retained (with its rescaled estimate). -/
theorem c10_world_filter_rescale {α : Type} (world : List (WorldRow α)) :
    (∀ r ∈ worldFilterRescale world,
      0 < r.pop_est ∧ r.name ≠ "Antarctica" ∧
      ∃ r0 ∈ world, 0 < r0.pop_est ∧ r.pop_est = r0.pop_est * (1 / 1000000) ∧
        r.name = r0.name ∧ r.rest = r0.rest) ∧
    (∀ r0 ∈ world, 0 < r0.pop_est → r0.name ≠ "Antarctica" →
      ({ r0 with pop_est := r0.pop_est * (1 / 1000000) } : WorldRow α) ∈
        worldFilterRescale world) := by
  constructor
  · intro r hr
    rcases List.mem_map.mp hr with ⟨r0, hr0, rfl⟩
    have h := List.mem_filter.mp hr0
    have h2 := h.2
    simp only [Bool.and_eq_true, decide_eq_true_eq, bne_iff_ne] at h2
    exact ⟨mul_pos h2.1 (by norm_num), h2.2, r0, h.1, h2.1, rfl, rfl, rfl⟩
  · intro r0 h0 hp hn
    refine List.mem_map.mpr ⟨r0, List.mem_filter.mpr ⟨h0, ?_⟩, rfl⟩
    simp only [Bool.and_eq_true, decide_eq_true_eq, bne_iff_ne]
    exact ⟨hp, hn⟩

/-- Witness for C10 at a concrete one-row table: the row survives the filter
with its estimate rescaled by 1e-6 and its other columns unchanged. -/
theorem c10_world_filter_rescale_witness :
    ({ pop_est := 10 * (1 / 1000000), name := "France", rest := () } : WorldRow Unit) ∈
      worldFilterRescale [{ pop_est := 10, name := "France", rest := () }] :=
  (c10_world_filter_rescale [{ pop_est := 10, name := "France", rest := () }]).2 _
    (List.mem_singleton.mpr rfl) (by norm_num) (by decide)
